import Mathlib

/-!
# Diagnostics bundle printer

A shallow embedding of `pkg/kudoctl/cmd/diagnostics/print.go` and the properties of its
error-accumulating printer.

Conventions of the embedding:

* Go strings and byte slices are Lean strings; `fmt.Sprintf` and `fmt.Errorf` with `%s` / `%v`
  verbs are string concatenation, `[]byte(s)` is `s`.
* `afero.Fs` is a state (`Fs`) passed explicitly. Which calls fail, and with which error text, is
  decided by three fault tables carried by the state; they never change.
* Interface arguments (`error`, `runtime.Object`, `io.ReadCloser`) are non-nil and their own
  methods (`Error`, `GetName`, `Read`, `Close`) return, as do the calls on the filesystem.
* A Go function returning `error` ends in an `Outcome`: it returns its result (`none` is `nil`,
  `some e` an error whose `Error()` is `e`) or it panics; print.go has no `recover`, so a panic
  goes through every caller.
* Collaborators that live outside the file (`yaml.Marshal`, `printers.YAMLPrinter`, the type
  registry, `meta.EachListItem`) are represented by what they answer for the value at hand.
* The gzip encoding is a parameter `gz` of the log writer: the bytes emitted for a block read.
* `strings.ToLower` is modelled on the ASCII letters, which is where kinds live.
-/

namespace Diagnostics

/-! ## Strings -/

/-- Case folding of `strings.ToLower`, on the ASCII letters. -/
def toLower (s : String) : String := String.mk (s.data.map Char.toLower)

/-! ## The filesystem collaborator -/

/-- Model of an `afero.Fs`. `dirs` lists the directories requested through `MkdirAll` so far (their
ancestors are implied), `files` maps a path to the content of the file created there. The three
tables say which paths make `MkdirAll`, `Create` and `Write` fail, and with which error. -/
structure Fs where
  mkdirErr : String → Option String
  createErr : String → Option String
  writeErr : String → Option String
  dirs : List String
  files : String → Option String

/-- The call `fs.MkdirAll(path, 0700)`: idempotent directory creation. -/
def Fs.MkdirAll (fs : Fs) (path : String) : Except String Fs :=
  match fs.mkdirErr path with
  | some e => .error e
  | none => .ok { fs with dirs := if path ∈ fs.dirs then fs.dirs else fs.dirs ++ [path] }

/-- The call `fs.Create(path)`: creates or truncates the file; the handle is the path. -/
def Fs.Create (fs : Fs) (path : String) : Except String Fs :=
  match fs.createErr path with
  | some e => .error e
  | none => .ok { fs with files := fun q => if q = path then some "" else fs.files q }

/-- The call `file.Write(b)` on the handle returned by `Create`: appends to the file. -/
def Fs.Write (fs : Fs) (file : String) (b : String) : Except String Fs :=
  match fs.writeErr file with
  | some e => .error e
  | none =>
    .ok { fs with files := fun q => if q = file then some ((fs.files file).getD "" ++ b)
                                    else fs.files q }

/-! ## Objects, values and log sources -/

/-- How a Go call ends: it returns its `error` result, or it panics. -/
inductive Outcome where
  | returned (err : Option String)
  | panicked
  deriving DecidableEq, Repr

/-- A `runtime.Object` looked at on its own.
* `kind`: `GetObjectKind().GroupVersionKind().Kind` as the object arrives;
* `kudoCR`: whether the object is a pre-resolved domain object;
* `scheme`: what the type registry answers for the object: its kind, or a failure text;
* `name`: `some n` when the dynamic type implements `Object` (then `GetName()` is `n`),
  `none` when the type assertion `obj.(Object)` fails;
* `yaml`: what `printers.YAMLPrinter` renders for the object, or its failure text. -/
structure Item where
  kind : String
  kudoCR : Bool
  scheme : Except String String
  name : Option String
  yaml : Except String String

/-- A `runtime.Object` as handed to `printRuntimeObject`: the object itself, and what
`meta.EachListItem` finds in it: the elements of a list object, or the failure text for an object
that is not a list. -/
structure RuntimeObj extends Item where
  items : Except String (List Item)

/-- What `yaml.Marshal` (gopkg.in/yaml.v2) does with a value: it returns the YAML text, it
returns an error, or it panics, as it does on a value it cannot encode (a channel, a function). -/
inductive Marshalled where
  | ok (b : String)
  | error (e : String)
  | panic

/-- An arbitrary value (`interface{}`), represented by what `yaml.Marshal` does with it. -/
structure Value where
  marshal : Marshalled

/-- An `io.ReadCloser`: the blocks that successive reads deliver, how the stream ends (`none` is
`io.EOF`, `some e` a read failure), and how many times `Close` has been invoked. -/
structure LogSource where
  reads : List String
  readErr : Option String
  closed : Nat

/-- The call `log.Close()`. -/
def LogSource.Close (log : LogSource) : LogSource := { log with closed := log.closed + 1 }

/-- Modelled from the spec: `isKudoCR`, defined elsewhere in the package; it tells whether the
input claims to be a pre-resolved domain object (one that already carries a recognized kind). -/
def isKudoCR (obj : Item) : Bool := obj.kudoCR

/-- Modelled from the spec: `kudo.SetGVKFromScheme`, the kind-resolution collaborator. Given an
object it returns (and records on the object) its kind, or fails with the registry's "not
registered" condition. -/
def SetGVKFromScheme (obj : Item) : Except String Item :=
  match obj.scheme with
  | .error e => .error e
  | .ok k => .ok { obj with kind := k }

/-- The call `printers.YAMLPrinter.PrintObj(o, file)`: renders the object and writes the text to
the file; a render failure or a write failure is returned as it is. -/
def PrintObj (fs : Fs) (o : Item) (file : String) : Fs × Outcome :=
  match o.yaml with
  | .error e => (fs, .returned (some e))
  | .ok out =>
    match fs.Write file out with
    | .error e => (fs, .returned (some e))
    | .ok fs => (fs, .returned none)

/-- The loop of `meta.EachListItem(obj, fn)` over the elements of a list: `fn` is applied to the
elements in order and the first error (or panic) ends the loop. -/
def eachListItem (fn : Fs → Item → Fs × Outcome) : Fs → List Item → Fs × Outcome
  | fs, [] => (fs, .returned none)
  | fs, ro :: rest =>
    match fn fs ro with
    | (fs, .returned none) => eachListItem fn fs rest
    | r => r

/-- The call `meta.EachListItem(obj, fn)`: fails on an object that is not a list. -/
def EachListItem (fs : Fs) (obj : RuntimeObj) (fn : Fs → Item → Fs × Outcome) : Fs × Outcome :=
  match obj.items with
  | .error e => (fs, .returned (some e))
  | .ok items => eachListItem fn fs items

/-! ## print.go -/

/-- The type `printMode` (an `int`). -/
abbrev printMode := Int

/-- Print the object into its own nested directory based on its name and kind. -/
def ObjectWithDir : printMode := 0

/-- Print each object into its own nested directory based on its name and kind. -/
def ObjectListWithDirs : printMode := 1

/-- Print as a file based on its kind only. -/
def RuntimeObject : printMode := 2

/-- The function `printSingleObject`. -/
def printSingleObject (fs : Fs) (obj : Item) (parentDir : String) : Fs × Outcome :=
  match (if !isKudoCR obj then SetGVKFromScheme obj else .ok obj) with
  | .error err => (fs, .returned (some err))
  | .ok obj =>
    -- o, _ := obj.(Object); calling a method of the nil interface panics
    match obj.name with
    | none => (fs, .panicked)
    | some name =>
      let relToParentDir := toLower obj.kind ++ "_" ++ name
      let dir := parentDir ++ "/" ++ relToParentDir
      match fs.MkdirAll dir with
      | .error err => (fs, .returned (some ("failed to create directory " ++ dir ++ ": " ++ err)))
      | .ok fs =>
        let fileWithPath := dir ++ "/" ++ name ++ ".yaml"
        match fs.Create fileWithPath with
        | .error err => (fs, .returned (some ("failed to create " ++ fileWithPath ++ ": " ++ err)))
        | .ok fs => PrintObj fs obj fileWithPath

/-- The function `printSingleRuntimeObject`. -/
def printSingleRuntimeObject (fs : Fs) (obj : Item) (dir : String) : Fs × Outcome :=
  match SetGVKFromScheme obj with
  | .error err => (fs, .returned (some err))
  | .ok obj =>
    match fs.MkdirAll dir with
    | .error err => (fs, .returned (some ("failed to create directory " ++ dir ++ ": " ++ err)))
    | .ok fs =>
      let fileWithPath := dir ++ "/" ++ toLower obj.kind ++ ".yaml"
      match fs.Create fileWithPath with
      | .error err => (fs, .returned (some ("failed to create " ++ fileWithPath ++ ": " ++ err)))
      | .ok fs => PrintObj fs obj fileWithPath

/-- The function `printRuntimeObject`. -/
def printRuntimeObject (fs : Fs) (obj : RuntimeObj) (parentDir : String) (mode : printMode) :
    Fs × Outcome :=
  if mode = ObjectWithDir then
    printSingleObject fs obj.toItem parentDir
  else if mode = ObjectListWithDirs then
    EachListItem fs obj (fun fs ro => printSingleObject fs ro parentDir)
  else
    printSingleRuntimeObject fs obj.toItem parentDir

/-- The function `printBytes`. -/
def printBytes (fs : Fs) (b : String) (dir name : String) : Fs × Outcome :=
  match fs.MkdirAll dir with
  | .error err => (fs, .returned (some ("failed to create directory " ++ dir ++ ": " ++ err)))
  | .ok fs =>
    let fileNameWithPath := dir ++ "/" ++ name
    match fs.Create fileNameWithPath with
    | .error err =>
      (fs, .returned (some ("failed to create file " ++ fileNameWithPath ++ ": " ++ err)))
    | .ok fs =>
      match fs.Write fileNameWithPath b with
      | .error err =>
        (fs, .returned (some ("failed to write to file " ++ fileNameWithPath ++ ": " ++ err)))
      | .ok fs => (fs, .returned none)

/-- The function `printYaml`. -/
def printYaml (fs : Fs) (v : Value) (dir name : String) : Fs × Outcome :=
  match v.marshal with
  | .panic => (fs, .panicked)
  | .error err =>
    (fs, .returned
      (some ("failed to marshal object to " ++ dir ++ "/" ++ name ++ ".yaml: " ++ err)))
  | .ok b =>
    match fs.MkdirAll dir with
    | .error err => (fs, .returned (some ("failed to create directory " ++ dir ++ ": " ++ err)))
    | .ok fs =>
      let name := name ++ ".yaml"
      printBytes fs b dir name

/-- The gzip writer built by `newGzipWriter`: the sink and the block size. -/
structure gzipWriter where
  file : String
  blockSize : Nat

/-- Modelled from the spec: `newGzipWriter`, defined elsewhere in the package. -/
def newGzipWriter (file : String) (blockSize : Nat) : gzipWriter := { file, blockSize }

/-- The copy loop of the gzip writer: every block read is compressed (`gz`) and written to the
sink; the first failing write ends the loop. Returns the blocks left unread. -/
def copyBlocks (gz : String → String) (file : String) :
    Fs → List String → Fs × List String × Option String
  | fs, [] => (fs, [], none)
  | fs, b :: rest =>
    match fs.Write file (gz b) with
    | .error e => (fs, rest, some e)
    | .ok fs => copyBlocks gz file fs rest

/-- Modelled from the spec: the `Write` method of the gzip writer, defined elsewhere in the
package. It streams all bytes of the source through the compressing transform `gz` into the sink
and fails if a read from the source or a write to the sink fails; bytes already written stay in
the file. It does not close the source. -/
def gzipWriter.Write (gz : String → String) (z : gzipWriter) (fs : Fs) (log : LogSource) :
    Fs × LogSource × Option String :=
  match copyBlocks gz z.file fs log.reads with
  | (fs, rest, some e) => (fs, { log with reads := rest }, some e)
  | (fs, rest, none) => (fs, { log with reads := rest }, log.readErr)

/-- The function `printLog`. -/
def printLog (gz : String → String) (fs : Fs) (log : LogSource) (parentDir podName : String) :
    Fs × LogSource × Outcome :=
  let dir := parentDir ++ "/pod_" ++ podName
  match fs.MkdirAll dir with
  | .error err =>
    (fs, log, .returned (some ("failed to create directory " ++ dir ++ ": " ++ err)))
  | .ok fs =>
    let fileNameWithPath := dir ++ "/" ++ podName ++ ".log.gz"
    match fs.Create fileNameWithPath with
    | .error err =>
      (fs, log, .returned (some ("failed to create file " ++ fileNameWithPath ++ ": " ++ err)))
    | .ok fs =>
      let z := newGzipWriter fileNameWithPath 2048
      match z.Write gz fs log with
      | (fs, log, some err) =>
        (fs, log,
          .returned (some ("failed to write to file " ++ fileNameWithPath ++ ": " ++ err)))
      | (fs, log, none) => (fs, log.Close, .returned none)

/-! ## The error-accumulating printer -/

/-- The type `NonFailingPrinter`: prints the provided data into the provided directory and
accumulates errors instead of returning them. -/
structure NonFailingPrinter where
  fs : Fs
  errors : List String

/-- How a method of the printer ends: it returns to its caller (`normal`) or the panic of the
serializer goes through it (`panic`); either way the printer is left in some state. -/
inductive Completion where
  | normal (p : NonFailingPrinter)
  | panic (p : NonFailingPrinter)

/-- The printer a call leaves behind. -/
def Completion.printer : Completion → NonFailingPrinter
  | .normal p => p
  | .panic p => p

/-- Whether the call returned to its caller. -/
def Completion.returns : Completion → Bool
  | .normal _ => true
  | .panic _ => false

/-- The accumulation step shared by the four methods: a non-nil error has its text appended to
`p.errors`, a nil error leaves the accumulator as it is. -/
def NonFailingPrinter.record (p : NonFailingPrinter) (fs : Fs) (err : Option String) :
    NonFailingPrinter :=
  match err with
  | some e => { fs := fs, errors := p.errors ++ [e] }
  | none => { fs := fs, errors := p.errors }

/-- The method `printObject`. -/
def NonFailingPrinter.printObject (p : NonFailingPrinter) (o : RuntimeObj) (parentDir : String)
    (mode : printMode) : Completion :=
  match printRuntimeObject p.fs o parentDir mode with
  | (fs, .returned err) => .normal (p.record fs err)
  | (fs, .panicked) => .panic { fs := fs, errors := p.errors }

/-- The method `printError`. -/
def NonFailingPrinter.printError (p : NonFailingPrinter) (err : String) (parentDir name : String) :
    Completion :=
  let b := err
  match printBytes p.fs b parentDir (name ++ ".err") with
  | (fs, .returned err) => .normal (p.record fs err)
  | (fs, .panicked) => .panic { fs := fs, errors := p.errors }

/-- The method `printLog`; the log source is returned as the call leaves it. -/
def NonFailingPrinter.printLog (gz : String → String) (p : NonFailingPrinter) (log : LogSource)
    (parentDir name : String) : Completion × LogSource :=
  match Diagnostics.printLog gz p.fs log parentDir name with
  | (fs, log, .returned err) => (.normal (p.record fs err), log)
  | (fs, log, .panicked) => (.panic { fs := fs, errors := p.errors }, log)

/-- The method `printYaml`. -/
def NonFailingPrinter.printYaml (p : NonFailingPrinter) (v : Value) (parentDir name : String) :
    Completion :=
  match Diagnostics.printYaml p.fs v parentDir name with
  | (fs, .returned err) => .normal (p.record fs err)
  | (fs, .panicked) => .panic { fs := fs, errors := p.errors }

/-! ## Sequences of calls -/

/-- One call of the printer, with its arguments. -/
inductive Call where
  | object (o : RuntimeObj) (parentDir : String) (mode : printMode)
  | error (err : String) (parentDir name : String)
  | log (log : LogSource) (parentDir name : String)
  | yaml (v : Value) (parentDir name : String)

/-- Performs one call on the printer. -/
def step (gz : String → String) (p : NonFailingPrinter) : Call → Completion
  | .object o parentDir mode => p.printObject o parentDir mode
  | .error err parentDir name => p.printError err parentDir name
  | .log log parentDir name => (p.printLog gz log parentDir name).1
  | .yaml v parentDir name => p.printYaml v parentDir name

/-- Performs the calls in order; a panic ends the run. -/
def run (gz : String → String) : NonFailingPrinter → List Call → Completion
  | p, [] => .normal p
  | p, c :: cs =>
    match step gz p c with
    | .normal q => run gz q cs
    | .panic q => .panic q

/-- The serializer underneath a call, run on a filesystem: the filesystem it leaves and how it
ends. -/
def serializer (gz : String → String) (fs : Fs) : Call → Fs × Outcome
  | .object o parentDir mode => printRuntimeObject fs o parentDir mode
  | .error err parentDir name => printBytes fs err parentDir (name ++ ".err")
  | .log log parentDir name =>
    ((printLog gz fs log parentDir name).1, (printLog gz fs log parentDir name).2.2)
  | .yaml v parentDir name => printYaml fs v parentDir name

/-- The texts of the errors that the serializers return along a sequence of calls, in submission
order: each call runs on the filesystem left by the calls before it. -/
def reported (gz : String → String) : Fs → List Call → List String
  | _, [] => []
  | fs, c :: cs =>
    match serializer gz fs c with
    | (fs, .returned (some e)) => e :: reported gz fs cs
    | (fs, .returned none) => reported gz fs cs
    | (_, .panicked) => []

/-! ## Vocabulary of the statements -/

/-- The filesystem `fs'` is `fs` after some more successful operations: the fault tables are the
same, every directory of `fs` is a directory of `fs'` and every file of `fs` is a file of `fs'`. -/
def Fs.Grows (fs fs' : Fs) : Prop :=
  fs'.mkdirErr = fs.mkdirErr ∧ fs'.createErr = fs.createErr ∧ fs'.writeErr = fs.writeErr
  ∧ (∀ d ∈ fs.dirs, d ∈ fs'.dirs)
  ∧ (∀ q, (fs.files q).isSome = true → (fs'.files q).isSome = true)

/-- The kind under which `printSingleObject` files an object: the kind it carries when it is
pre-resolved, the kind the registry answers otherwise. -/
def kindOf (x : Item) : String :=
  if x.kudoCR then x.kind
  else
    match x.scheme with
    | .ok k => k
    | .error _ => x.kind

/-- The text line "failed to <action> <path>: <cause>". -/
def failedTo (action path cause : String) : String :=
  "failed to " ++ action ++ " " ++ path ++ ": " ++ cause

/-- The actions named in the error lines of print.go. -/
def actions : List String :=
  ["create directory", "create", "create file", "write to file", "marshal object to"]

/-- The failure underneath a wrapped error of the call `c` on the filesystem `fs`: creating the
directory `path`, creating the file `path` or writing to it failed with the text `cause`, or
marshalling the value destined for `path` did, or reading the log destined for `path` did. -/
def Underlying (fs : Fs) (c : Call) (path cause : String) : Prop :=
  fs.mkdirErr path = some cause ∨ fs.createErr path = some cause ∨ fs.writeErr path = some cause
  ∨ (∃ v dir name, c = .yaml v dir name ∧ v.marshal = .error cause
      ∧ path = dir ++ "/" ++ name ++ ".yaml")
  ∨ (∃ log dir name, c = .log log dir name ∧ log.readErr = some cause
      ∧ path = dir ++ "/pod_" ++ name ++ "/" ++ name ++ ".log.gz")

/-- The error text `e` is a line "failed to <action> <path>: <cause>" whose cause is the text of
the failure underneath. -/
def Wrapped (fs : Fs) (c : Call) (e : String) : Prop :=
  ∃ action path cause, action ∈ actions ∧ Underlying fs c path cause
    ∧ e = failedTo action path cause

/-- The error text `e` is, unchanged, the text of a failure of a `printObject` call that the code
returns as it is: kind resolution of the object or of a list element failed, the object is not a
list, the YAML printer could not render the object or a list element, or its write failed. -/
def Unwrapped (fs : Fs) (c : Call) (e : String) : Prop :=
  ∃ o dir mode, c = .object o dir mode ∧
    (o.scheme = .error e ∨ o.yaml = .error e ∨ o.items = .error e
      ∨ (∃ items x, o.items = .ok items ∧ x ∈ items ∧ (x.scheme = .error e ∨ x.yaml = .error e))
      ∨ (∃ path, fs.writeErr path = some e))

/-- An empty filesystem on which every operation succeeds. -/
def emptyFs : Fs :=
  { mkdirErr := fun _ => none, createErr := fun _ => none, writeErr := fun _ => none,
    dirs := [], files := fun _ => none }

/-- A filesystem on which no directory can be created. -/
def readOnlyFs : Fs :=
  { emptyFs with mkdirErr := fun _ => some "permission denied" }

/-- A filesystem on which directories can be created and files cannot. -/
def fullFs : Fs :=
  { emptyFs with createErr := fun _ => some "no space left on device" }

/-- A pod named "web-1" whose kind the registry knows. -/
def podWeb1 : Item :=
  { kind := "", kudoCR := false, scheme := .ok "Pod", name := some "web-1", yaml := .ok "kind: Pod" }

/-- An object of a type unknown to the registry. -/
def unregistered : RuntimeObj :=
  { kind := "", kudoCR := false, scheme := .error "no kind is registered for the type",
    name := some "web-1", yaml := .ok "spec: 1", items := .error "not a list" }

/-- A printer on the empty filesystem with an empty accumulator. -/
def emptyPrinter : NonFailingPrinter := { fs := emptyFs, errors := [] }

/-- A list of services; the list object itself carries no object metadata. -/
def serviceList : RuntimeObj :=
  { kind := "", kudoCR := false, scheme := .ok "ServiceList", name := none,
    yaml := .ok "kind: ServiceList", items := .ok [] }

/-- A pod list with the single element `podWeb1`. -/
def podList1 : RuntimeObj :=
  { kind := "", kudoCR := false, scheme := .ok "PodList", name := none,
    yaml := .ok "kind: PodList", items := .ok [podWeb1] }

/-- A log of two blocks that ends normally; it has not been closed. -/
def podLog : LogSource := { reads := ["line 1", "line 2"], readErr := none, closed := 0 }

/-- A log that fails after its first block; it has not been closed. -/
def brokenLog : LogSource :=
  { reads := ["line 1"], readErr := some "connection reset", closed := 0 }

/-- A pre-resolved domain object: it carries its kind, and its type is not in the registry. -/
def instanceCR : RuntimeObj :=
  { kind := "Instance", kudoCR := true, scheme := .error "no kind is registered for the type",
    name := some "zk", yaml := .ok "kind: Instance", items := .error "not a list" }

/-- A value that `yaml.Marshal` cannot encode (a channel): the encoder panics on it. -/
def channelValue : Value := { marshal := .panic }

/-! ## Basic facts about the filesystem model -/

theorem mem_dirs_after_mkdir (dirs : List String) (path : String) :
    path ∈ (if path ∈ dirs then dirs else dirs ++ [path]) := by
  split <;> simp_all

theorem dirs_after_mkdir_sub (dirs : List String) (path : String) :
    ∀ d ∈ (if path ∈ dirs then dirs else dirs ++ [path]), d ∈ dirs ∨ d = path := by
  intro d hd
  split at hd
  · exact Or.inl hd
  · simpa using hd

theorem Fs.Grows.refl (fs : Fs) : fs.Grows fs :=
  ⟨rfl, rfl, rfl, fun _ h => h, fun _ h => h⟩

theorem Fs.Grows.trans {a b c : Fs} (hab : a.Grows b) (hbc : b.Grows c) : a.Grows c :=
  ⟨hbc.1.trans hab.1, hbc.2.1.trans hab.2.1, hbc.2.2.1.trans hab.2.2.1,
    fun d h => hbc.2.2.2.1 d (hab.2.2.2.1 d h), fun q h => hbc.2.2.2.2 q (hab.2.2.2.2 q h)⟩

theorem MkdirAll_grows {fs fs1 : Fs} {path : String} (h : fs.MkdirAll path = .ok fs1) :
    fs.Grows fs1 ∧ path ∈ fs1.dirs := by
  unfold Fs.MkdirAll at h
  split at h
  · cases h
  · cases h
    refine ⟨⟨rfl, rfl, rfl, ?_, fun _ h => h⟩, mem_dirs_after_mkdir _ _⟩
    intro d hd
    simp only
    split
    · exact hd
    · exact List.mem_append_left _ hd

theorem Create_grows {fs fs1 : Fs} {path : String} (h : fs.Create path = .ok fs1) :
    fs.Grows fs1 ∧ (fs1.files path).isSome = true := by
  unfold Fs.Create at h
  split at h
  · cases h
  · cases h
    refine ⟨⟨rfl, rfl, rfl, fun _ h => h, ?_⟩, by simp⟩
    intro q hq
    simp only
    split
    · rfl
    · exact hq

theorem Write_grows {fs fs1 : Fs} {file b : String} (h : fs.Write file b = .ok fs1) :
    fs.Grows fs1 := by
  unfold Fs.Write at h
  split at h
  · cases h
  · cases h
    refine ⟨rfl, rfl, rfl, fun _ h => h, ?_⟩
    intro q hq
    simp only
    split
    · rfl
    · exact hq

theorem PrintObj_grows (fs : Fs) (o : Item) (file : String) : fs.Grows (PrintObj fs o file).1 := by
  unfold PrintObj
  split
  · exact Fs.Grows.refl fs
  · split
    · exact Fs.Grows.refl fs
    · next h => exact Write_grows h

theorem printSingleObject_grows (fs : Fs) (x : Item) (dir : String) :
    fs.Grows (printSingleObject fs x dir).1 := by
  unfold printSingleObject
  split
  · exact Fs.Grows.refl fs
  · split
    · exact Fs.Grows.refl fs
    · simp only []
      split
      · exact Fs.Grows.refl fs
      · next h1 =>
        split
        · exact (MkdirAll_grows h1).1
        · next h2 =>
          exact (MkdirAll_grows h1).1.trans ((Create_grows h2).1.trans (PrintObj_grows _ _ _))

/-! ## Placement of a single structured object -/

theorem PrintObj_dirs (fs : Fs) (o : Item) (file : String) :
    (PrintObj fs o file).1.dirs = fs.dirs := by
  cases hy : o.yaml <;> cases hw : fs.writeErr file <;> simp [PrintObj, Fs.Write, hy, hw]

theorem PrintObj_written (fs : Fs) (o : Item) (file out : String) (hy : o.yaml = .ok out)
    (hw : fs.writeErr file = none) :
    (PrintObj fs o file).1.files file = some ((fs.files file).getD "" ++ out)
    ∧ (PrintObj fs o file).2 = .returned none := by
  simp [PrintObj, Fs.Write, hy, hw]

theorem printSingleObject_eq_PrintObj (fs : Fs) (obj : Item) (parent kind name : String)
    (hkind : (obj.kudoCR = true ∧ obj.kind = kind) ∨ (obj.kudoCR = false ∧ obj.scheme = .ok kind))
    (hname : obj.name = some name)
    (hmkdir : fs.mkdirErr (parent ++ "/" ++ toLower kind ++ "_" ++ name) = none)
    (hcreate :
      fs.createErr (parent ++ "/" ++ toLower kind ++ "_" ++ name ++ "/" ++ name ++ ".yaml") = none) :
    printSingleObject fs obj parent
      = PrintObj
          { fs with
            dirs := if (parent ++ "/" ++ toLower kind ++ "_" ++ name) ∈ fs.dirs then fs.dirs
                    else fs.dirs ++ [parent ++ "/" ++ toLower kind ++ "_" ++ name]
            files := fun q =>
              if q = parent ++ "/" ++ toLower kind ++ "_" ++ name ++ "/" ++ name ++ ".yaml"
              then some "" else fs.files q }
          { obj with kind := kind }
          (parent ++ "/" ++ toLower kind ++ "_" ++ name ++ "/" ++ name ++ ".yaml") := by
  simp only [String.append_assoc] at hmkdir hcreate ⊢
  rcases hkind with ⟨hk, rfl⟩ | ⟨hk, hs⟩
  · rw [show ({ obj with kind := obj.kind } : Item) = obj from rfl]
    simp [printSingleObject, isKudoCR, hk, hname, Fs.MkdirAll, Fs.Create, String.append_assoc,
      hmkdir, hcreate]
  · simp [printSingleObject, isKudoCR, SetGVKFromScheme, hk, hs, hname, Fs.MkdirAll, Fs.Create,
      String.append_assoc, hmkdir, hcreate]

/-- C1. With directory and file creation succeeding, `printSingleObject` (the code run in mode
`ObjectWithDir`) on an object of kind `kind` (carried by a pre-resolved object, or answered by the
registry) and name `name` creates the directory `<parent>/<lowercase(kind)>_<name>` and the file
`<parent>/<lowercase(kind)>_<name>/<name>.yaml`, and hands the object to the YAML printer with
that file as the sink: the call is the printer's call on that file, and when the rendering is
written the file holds exactly the rendered object and the call returns nil. For kind "Pod" and
name "web-1" the file is `<parent>/pod_web-1/web-1.yaml`. -/
theorem printSingleObject_nested_path (fs : Fs) (obj : Item) (parent kind name : String)
    (hkind : (obj.kudoCR = true ∧ obj.kind = kind) ∨ (obj.kudoCR = false ∧ obj.scheme = .ok kind))
    (hname : obj.name = some name)
    (hmkdir : fs.mkdirErr (parent ++ "/" ++ toLower kind ++ "_" ++ name) = none)
    (hcreate :
      fs.createErr (parent ++ "/" ++ toLower kind ++ "_" ++ name ++ "/" ++ name ++ ".yaml") = none) :
    (parent ++ "/" ++ toLower kind ++ "_" ++ name) ∈ (printSingleObject fs obj parent).1.dirs
    ∧ ((printSingleObject fs obj parent).1.files
        (parent ++ "/" ++ toLower kind ++ "_" ++ name ++ "/" ++ name ++ ".yaml")).isSome = true
    ∧ (∀ out, obj.yaml = .ok out →
        fs.writeErr (parent ++ "/" ++ toLower kind ++ "_" ++ name ++ "/" ++ name ++ ".yaml") = none →
        (printSingleObject fs obj parent).1.files
            (parent ++ "/" ++ toLower kind ++ "_" ++ name ++ "/" ++ name ++ ".yaml") = some out
          ∧ (printSingleObject fs obj parent).2 = .returned none)
    ∧ printSingleObject fs obj parent
        = PrintObj
            { fs with
              dirs := if (parent ++ "/" ++ toLower kind ++ "_" ++ name) ∈ fs.dirs then fs.dirs
                      else fs.dirs ++ [parent ++ "/" ++ toLower kind ++ "_" ++ name]
              files := fun q =>
                if q = parent ++ "/" ++ toLower kind ++ "_" ++ name ++ "/" ++ name ++ ".yaml"
                then some "" else fs.files q }
            { obj with kind := kind }
            (parent ++ "/" ++ toLower kind ++ "_" ++ name ++ "/" ++ name ++ ".yaml")
    ∧ (kind = "Pod" → name = "web-1" →
        ((printSingleObject fs obj parent).1.files (parent ++ "/pod_web-1/web-1.yaml")).isSome
          = true) := by
  have heq := printSingleObject_eq_PrintObj fs obj parent kind name hkind hname hmkdir hcreate
  have hfile : ((printSingleObject fs obj parent).1.files
      (parent ++ "/" ++ toLower kind ++ "_" ++ name ++ "/" ++ name ++ ".yaml")).isSome = true := by
    rw [heq]
    exact (PrintObj_grows _ _ _).2.2.2.2 _ (by simp)
  refine ⟨?_, hfile, ?_, heq, ?_⟩
  · rw [heq, PrintObj_dirs]
    exact mem_dirs_after_mkdir _ _
  · intro out hy hw
    rw [heq]
    have := PrintObj_written
      { fs with
        dirs := if (parent ++ "/" ++ toLower kind ++ "_" ++ name) ∈ fs.dirs then fs.dirs
                else fs.dirs ++ [parent ++ "/" ++ toLower kind ++ "_" ++ name]
        files := fun q =>
          if q = parent ++ "/" ++ toLower kind ++ "_" ++ name ++ "/" ++ name ++ ".yaml"
          then some "" else fs.files q }
      { obj with kind := kind }
      (parent ++ "/" ++ toLower kind ++ "_" ++ name ++ "/" ++ name ++ ".yaml") out hy hw
    simpa using this
  · intro h1 h2
    subst h1 h2
    have hpod : parent ++ "/pod_web-1/web-1.yaml"
        = parent ++ "/" ++ toLower "Pod" ++ "_" ++ "web-1" ++ "/" ++ "web-1" ++ ".yaml" := by
      have h : toLower "Pod" = "pod" := by decide
      simp [h, String.append_assoc]
    rw [hpod]
    exact hfile

/-- Witness for `printSingleObject_nested_path`: the pod "web-1" printed under "diag" on an empty
filesystem without faults. -/
theorem printSingleObject_nested_path_witness :
    (printSingleObject emptyFs podWeb1 "diag").1.dirs = ["diag/pod_web-1"]
    ∧ (printSingleObject emptyFs podWeb1 "diag").1.files "diag/pod_web-1/web-1.yaml"
        = some "kind: Pod" :=
  ⟨by decide,
    ((printSingleObject_nested_path emptyFs podWeb1 "diag" "Pod" "web-1"
      (Or.inr ⟨rfl, rfl⟩) rfl rfl rfl).2.2.1 "kind: Pod" rfl rfl).1⟩

/-! ## Error records -/

/-- C2. With directory creation, file creation and the write succeeding, `printError` produces
the file `<dir>/<name>.err` whose content is exactly the text of the error, appends nothing to
the accumulator, and returns to its caller. -/
theorem printError_round_trip (p : NonFailingPrinter) (err dir name : String)
    (hmkdir : p.fs.mkdirErr dir = none)
    (hcreate : p.fs.createErr (dir ++ "/" ++ name ++ ".err") = none)
    (hwrite : p.fs.writeErr (dir ++ "/" ++ name ++ ".err") = none) :
    (p.printError err dir name).printer.fs.files (dir ++ "/" ++ name ++ ".err") = some err
    ∧ (p.printError err dir name).printer.errors = p.errors
    ∧ dir ∈ (p.printError err dir name).printer.fs.dirs
    ∧ (p.printError err dir name).returns = true := by
  simp only [String.append_assoc] at hcreate hwrite ⊢
  simp [NonFailingPrinter.printError, printBytes, Fs.MkdirAll, Fs.Create, Fs.Write,
    NonFailingPrinter.record, Completion.printer, Completion.returns, String.append_assoc,
    hmkdir, hcreate, hwrite, mem_dirs_after_mkdir]

/-- Witness for `printError_round_trip`: the error "boom" recorded for "web-1" under "dir". -/
theorem printError_round_trip_witness :
    (emptyPrinter.printError "boom" "dir" "web-1").printer.fs.files "dir/web-1.err" = some "boom"
    ∧ (emptyPrinter.printError "boom" "dir" "web-1").printer.errors = [] :=
  ⟨(printError_round_trip emptyPrinter "boom" "dir" "web-1" rfl rfl rfl).1,
    (printError_round_trip emptyPrinter "boom" "dir" "web-1" rfl rfl rfl).2.1⟩

/-! ## Kind resolution failures -/

/-- C8. When kind resolution fails for a single object, `printSingleObject` (for an object that is
not pre-resolved; mode `ObjectWithDir`) and `printSingleRuntimeObject` (mode `RuntimeObject` and
every other mode value) return that failure as their error and leave the filesystem as it was: no
directory and no file is created or written. -/
theorem resolution_failure_leaves_fs_unchanged (fs : Fs) (obj : RuntimeObj) (dir e : String)
    (hfail : obj.scheme = .error e) :
    (obj.kudoCR = false → printSingleObject fs obj.toItem dir = (fs, .returned (some e)))
    ∧ printSingleRuntimeObject fs obj.toItem dir = (fs, .returned (some e))
    ∧ (obj.kudoCR = false →
        printRuntimeObject fs obj dir ObjectWithDir = (fs, .returned (some e)))
    ∧ (∀ mode : printMode, mode ≠ ObjectWithDir → mode ≠ ObjectListWithDirs →
        printRuntimeObject fs obj dir mode = (fs, .returned (some e))) := by
  refine ⟨?_, ?_, ?_, ?_⟩
  · intro hk
    simp [printSingleObject, isKudoCR, SetGVKFromScheme, hk, hfail]
  · simp [printSingleRuntimeObject, SetGVKFromScheme, hfail]
  · intro hk
    simp [printRuntimeObject, printSingleObject, isKudoCR, SetGVKFromScheme, hk, hfail]
  · intro mode h0 h1
    simp [printRuntimeObject, printSingleRuntimeObject, SetGVKFromScheme, h0, h1, hfail]

/-- Witness for `resolution_failure_leaves_fs_unchanged`: an object of a type the registry does
not know, printed in mode `RuntimeObject`. -/
theorem resolution_failure_leaves_fs_unchanged_witness :
    printRuntimeObject emptyFs unregistered "diag" RuntimeObject
      = (emptyFs, .returned (some "no kind is registered for the type")) :=
  (resolution_failure_leaves_fs_unchanged emptyFs unregistered "diag"
    "no kind is registered for the type" rfl).2.2.2 RuntimeObject (by decide) (by decide)

/-! ## Flat placement -/

/-- C9. In mode `RuntimeObject`, and in every mode value other than `ObjectWithDir` and
`ObjectListWithDirs`, `printRuntimeObject` on an object whose kind the registry resolves to
`kind` requests no directory other than the parent as given and touches no file other than
`<parent>/<lowercase(kind)>.yaml`; with directory and file creation succeeding that file exists
and the object is handed to the YAML printer with that file as the sink: the call is the
printer's call on that file, and when the rendering is written the file holds exactly the
rendered object and the call returns nil. -/
theorem printRuntimeObject_flat_path (fs : Fs) (obj : RuntimeObj) (parent kind : String)
    (mode : printMode) (hmode : mode ≠ ObjectWithDir) (hmode' : mode ≠ ObjectListWithDirs)
    (hkind : obj.scheme = .ok kind) :
    (∀ d ∈ (printRuntimeObject fs obj parent mode).1.dirs, d ∈ fs.dirs ∨ d = parent)
    ∧ (∀ q, q ≠ parent ++ "/" ++ toLower kind ++ ".yaml" →
        (printRuntimeObject fs obj parent mode).1.files q = fs.files q)
    ∧ (fs.mkdirErr parent = none → fs.createErr (parent ++ "/" ++ toLower kind ++ ".yaml") = none →
        parent ∈ (printRuntimeObject fs obj parent mode).1.dirs
        ∧ ((printRuntimeObject fs obj parent mode).1.files
            (parent ++ "/" ++ toLower kind ++ ".yaml")).isSome = true
        ∧ (∀ out, obj.yaml = .ok out →
            fs.writeErr (parent ++ "/" ++ toLower kind ++ ".yaml") = none →
            (printRuntimeObject fs obj parent mode).1.files
                (parent ++ "/" ++ toLower kind ++ ".yaml") = some out
              ∧ (printRuntimeObject fs obj parent mode).2 = .returned none)
        ∧ printRuntimeObject fs obj parent mode
            = PrintObj
                { fs with
                  dirs := if parent ∈ fs.dirs then fs.dirs else fs.dirs ++ [parent]
                  files := fun q =>
                    if q = parent ++ "/" ++ toLower kind ++ ".yaml" then some "" else fs.files q }
                { obj.toItem with kind := kind }
                (parent ++ "/" ++ toLower kind ++ ".yaml")) := by
  simp only [String.append_assoc]
  cases hm : fs.mkdirErr parent <;>
    cases hc : fs.createErr (parent ++ ("/" ++ (toLower kind ++ ".yaml"))) <;>
    cases hy : obj.yaml <;>
    cases hw : fs.writeErr (parent ++ ("/" ++ (toLower kind ++ ".yaml"))) <;>
    simp [printRuntimeObject, printSingleRuntimeObject, SetGVKFromScheme, hmode, hmode', hkind,
      Fs.MkdirAll, Fs.Create, PrintObj, Fs.Write, String.append_assoc, hm, hc, hy, hw,
      mem_dirs_after_mkdir] <;>
    (try constructor) <;>
    first
      | exact dirs_after_mkdir_sub _ _
      | (intro d hd; exact Or.inl hd)
      | (intro q hq; simp [hq])

/-- Witness for `printRuntimeObject_flat_path`: a service list printed flat under "diag". -/
theorem printRuntimeObject_flat_path_witness :
    (printRuntimeObject emptyFs serviceList "diag" RuntimeObject).1.dirs = ["diag"]
    ∧ (printRuntimeObject emptyFs serviceList "diag" RuntimeObject).1.files "diag/servicelist.yaml"
        = some "kind: ServiceList" :=
  ⟨by decide,
    (((printRuntimeObject_flat_path emptyFs serviceList "diag" "ServiceList" RuntimeObject
      (by decide) (by decide) rfl).2.2 rfl rfl).2.2.1 "kind: ServiceList" rfl rfl).1⟩

/-! ## The accumulator -/

theorem step_eq_serializer (gz : String → String) (p : NonFailingPrinter) (c : Call) :
    step gz p c =
      match serializer gz p.fs c with
      | (fs, .returned err) => .normal (p.record fs err)
      | (fs, .panicked) => .panic { fs := fs, errors := p.errors } := by
  cases c with
  | object o parentDir mode =>
    simp only [step, serializer, NonFailingPrinter.printObject]
  | error err parentDir name =>
    simp only [step, serializer, NonFailingPrinter.printError]
  | log log parentDir name =>
    simp only [step, serializer, NonFailingPrinter.printLog]
    rcases Diagnostics.printLog gz p.fs log parentDir name with ⟨fs, log', err | _⟩ <;> rfl
  | yaml v parentDir name =>
    simp only [step, serializer, NonFailingPrinter.printYaml]

theorem run_errors (gz : String → String) (cs : List Call) :
    ∀ p : NonFailingPrinter, (run gz p cs).printer.errors = p.errors ++ reported gz p.fs cs := by
  induction cs with
  | nil => intro p; simp [run, reported, Completion.printer]
  | cons c cs ih =>
    intro p
    simp only [run, reported, step_eq_serializer]
    rcases hs : serializer gz p.fs c with ⟨fs, err | _⟩
    · cases err <;> simp [ih, NonFailingPrinter.record]
    · simp [Completion.printer]

/-- C3. For every sequence of calls on one printer, the final accumulator is the initial
accumulator followed by the texts of the errors that the underlying serializers returned, one
entry per failing call and in submission order; a call whose serializer returns nil appends
nothing, and the initial entries stay in place unchanged. -/
theorem accumulator_appends_reported_errors (gz : String → String) (p : NonFailingPrinter)
    (cs : List Call) :
    (run gz p cs).printer.errors = p.errors ++ reported gz p.fs cs
    ∧ p.errors <+: (run gz p cs).printer.errors
    ∧ (∀ c, (serializer gz p.fs c).2 = .returned none →
        (step gz p c).printer.errors = p.errors)
    ∧ (∀ c e, (serializer gz p.fs c).2 = .returned (some e) →
        (step gz p c).printer.errors = p.errors ++ [e]) := by
  refine ⟨run_errors gz cs p, ⟨reported gz p.fs cs, (run_errors gz cs p).symm⟩, ?_, ?_⟩
  · intro c hc
    rw [step_eq_serializer]
    rcases hs : serializer gz p.fs c with ⟨fs, o⟩
    rw [hs] at hc
    simp only at hc
    subst hc
    simp [Completion.printer, NonFailingPrinter.record]
  · intro c e hc
    rw [step_eq_serializer]
    rcases hs : serializer gz p.fs c with ⟨fs, o⟩
    rw [hs] at hc
    simp only at hc
    subst hc
    simp [Completion.printer, NonFailingPrinter.record]

/-- Witness for `accumulator_appends_reported_errors`: on a filesystem that refuses every
directory, an error record and a value dump each leave one entry, in that order, after the entry
that was already there. -/
theorem accumulator_appends_reported_errors_witness :
    (run id { fs := readOnlyFs, errors := ["earlier"] }
      [.error "boom" "dir" "web-1", .yaml { marshal := .ok "a: 1" } "out" "values"]).printer.errors
      = ["earlier", "failed to create directory dir: permission denied",
          "failed to create directory out: permission denied"] :=
  (accumulator_appends_reported_errors id { fs := readOnlyFs, errors := ["earlier"] }
    [.error "boom" "dir" "web-1", .yaml { marshal := .ok "a: 1" } "out" "values"]).1

/-! ## Totality of the printer methods -/

theorem PrintObj_returns (fs : Fs) (o : Item) (file : String) :
    (PrintObj fs o file).2 ≠ .panicked := by
  unfold PrintObj
  repeat' split
  all_goals simp

theorem printSingleObject_panics_iff (fs : Fs) (obj : Item) (dir : String) :
    (printSingleObject fs obj dir).2 = .panicked
      ↔ obj.name = none ∧ (obj.kudoCR = true ∨ ∃ k, obj.scheme = .ok k) := by
  have hP := PrintObj_returns
  cases hk : obj.kudoCR <;> cases hs : obj.scheme <;> cases hn : obj.name <;>
    simp only [printSingleObject, isKudoCR, SetGVKFromScheme, hk, hs, hn] <;>
    simp <;>
    (repeat' split) <;>
    simp_all

theorem printSingleRuntimeObject_returns (fs : Fs) (obj : Item) (dir : String) :
    (printSingleRuntimeObject fs obj dir).2 ≠ .panicked := by
  have hP := PrintObj_returns
  unfold printSingleRuntimeObject
  split
  · simp
  · split
    · simp
    · simp only []
      split
      · simp
      · exact hP _ _ _

theorem eachListItem_returns (dir : String) (items : List Item)
    (hnames : ∀ x ∈ items, x.name ≠ none) :
    ∀ fs, (eachListItem (fun fs ro => printSingleObject fs ro dir) fs items).2 ≠ .panicked := by
  induction items with
  | nil => intro fs; simp [eachListItem]
  | cons x rest ih =>
    intro fs
    have hx : (printSingleObject fs x dir).2 ≠ .panicked := by
      rw [Ne, printSingleObject_panics_iff]
      exact fun h => hnames x (List.mem_cons_self _ _) h.1
    have hrest := ih (fun y hy => hnames y (List.mem_cons_of_mem _ hy))
    rcases hr : printSingleObject fs x dir with ⟨fs1, err | _⟩
    · cases err with
      | none => simpa [eachListItem, hr] using hrest fs1
      | some e => simp [eachListItem, hr]
    · rw [hr] at hx
      exact absurd rfl hx

theorem printObject_returns_iff (p : NonFailingPrinter) (o : RuntimeObj) (dir : String)
    (mode : printMode) :
    (p.printObject o dir mode).returns = true ↔ (printRuntimeObject p.fs o dir mode).2 ≠ .panicked := by
  unfold NonFailingPrinter.printObject
  rcases printRuntimeObject p.fs o dir mode with ⟨fs, err | _⟩ <;> simp [Completion.returns]

theorem printBytes_returns (fs : Fs) (b dir name : String) :
    (printBytes fs b dir name).2 ≠ .panicked := by
  unfold printBytes
  split
  · simp
  · simp only []
    split
    · simp
    · split <;> simp

theorem printLog_returns (gz : String → String) (fs : Fs) (log : LogSource) (dir name : String) :
    (printLog gz fs log dir name).2.2 ≠ .panicked := by
  unfold printLog
  simp only []
  split
  · simp
  · split
    · simp
    · split <;> simp

theorem printYaml_panics_iff (fs : Fs) (v : Value) (dir name : String) :
    (printYaml fs v dir name).2 = .panicked ↔ v.marshal = .panic := by
  have hB := printBytes_returns
  unfold printYaml
  split
  · next h => simp [h]
  · next h => simp [h]
  · next h =>
    split
    · simp [h]
    · simp only []
      simp [h, hB]

theorem returns_iff_serializer (gz : String → String) (p : NonFailingPrinter) (c : Call) :
    (step gz p c).returns = true ↔ (serializer gz p.fs c).2 ≠ .panicked := by
  rw [step_eq_serializer]
  rcases serializer gz p.fs c with ⟨fs, err | _⟩ <;> simp [Completion.returns]

/-- C4, as the code has it. `printError` and `printLog` return normally for every (non-nil)
input whose own methods return (`err.Error()`, the reads and `Close` of the log), on a
filesystem whose calls return: their serializers end in a return on every path. `printYaml`
returns normally exactly when
`yaml.Marshal` does not panic on the value; when it does (a value the encoder cannot encode) the
panic goes through. `printObject` (the registry, the list enumeration and the YAML printer being
calls that return) returns normally in mode `RuntimeObject` and in every mode value other than
`ObjectWithDir` and `ObjectListWithDirs`. In mode `ObjectWithDir` it panics exactly
when the object passes kind resolution (it is pre-resolved or the registry knows it) and does not
implement `Object`. In mode `ObjectListWithDirs` it returns normally on an object that is not a
list and on a list whose elements all implement `Object`. -/
theorem facade_returns_unless_metadata_missing (gz : String → String) (p : NonFailingPrinter) :
    (∀ err dir name, (step gz p (.error err dir name)).returns = true)
    ∧ (∀ log dir name, (step gz p (.log log dir name)).returns = true)
    ∧ (∀ v dir name, (step gz p (.yaml v dir name)).returns = false ↔ v.marshal = .panic)
    ∧ (∀ o dir mode, mode ≠ ObjectWithDir → mode ≠ ObjectListWithDirs →
        (step gz p (.object o dir mode)).returns = true)
    ∧ (∀ o dir, (step gz p (.object o dir ObjectWithDir)).returns = false
        ↔ o.name = none ∧ (o.kudoCR = true ∨ ∃ k, o.scheme = .ok k))
    ∧ (∀ o dir e, o.items = .error e →
        (step gz p (.object o dir ObjectListWithDirs)).returns = true)
    ∧ (∀ o dir items, o.items = .ok items → (∀ x ∈ items, x.name ≠ none) →
        (step gz p (.object o dir ObjectListWithDirs)).returns = true) := by
  refine ⟨?_, ?_, ?_, ?_, ?_, ?_, ?_⟩
  · intro err dir name
    rw [returns_iff_serializer]
    exact printBytes_returns _ _ _ _
  · intro log dir name
    rw [returns_iff_serializer]
    exact printLog_returns gz _ _ _ _
  · intro v dir name
    rw [← printYaml_panics_iff p.fs v dir name, ← Bool.not_eq_true, returns_iff_serializer]
    simp [serializer]
  · intro o dir mode h0 h1
    simp only [step, printObject_returns_iff, printRuntimeObject, h0, h1, if_false]
    exact printSingleRuntimeObject_returns _ _ _
  · intro o dir
    rw [← printSingleObject_panics_iff p.fs o.toItem dir, ← Bool.not_eq_true,
      show step gz p (.object o dir ObjectWithDir) = p.printObject o dir ObjectWithDir from rfl,
      printObject_returns_iff]
    simp [printRuntimeObject]
  · intro o dir e he
    simp only [step, printObject_returns_iff]
    simp [printRuntimeObject, ObjectListWithDirs, ObjectWithDir, EachListItem, he]
  · intro o dir items hi hnames
    simp only [step, printObject_returns_iff]
    simp only [printRuntimeObject, ObjectListWithDirs, ObjectWithDir, EachListItem, hi]
    simpa using eachListItem_returns dir items hnames p.fs

/-- Witness for `facade_returns_unless_metadata_missing`: a list of one pod printed in mode
`ObjectListWithDirs` returns normally; a list object printed in mode `ObjectWithDir`, and a value
on which `yaml.Marshal` panics, do not. -/
theorem facade_returns_unless_metadata_missing_witness :
    (step id emptyPrinter (.object podList1 "diag" ObjectListWithDirs)).returns = true
    ∧ (step id emptyPrinter (.object serviceList "diag" ObjectWithDir)).returns = false
    ∧ (step id emptyPrinter (.yaml channelValue "diag" "values")).returns = false :=
  ⟨(facade_returns_unless_metadata_missing id emptyPrinter).2.2.2.2.2.2 podList1 "diag" [podWeb1]
      rfl (by decide),
    ((facade_returns_unless_metadata_missing id emptyPrinter).2.2.2.2.1 serviceList "diag").2
      ⟨rfl, Or.inr ⟨"ServiceList", rfl⟩⟩,
    ((facade_returns_unless_metadata_missing id emptyPrinter).2.2.1 channelValue "diag"
      "values").2 rfl⟩

/-- C4 fails as stated: `printObject` in mode `ObjectWithDir` on an object that does not implement
`Object` (a list object, which carries list metadata only) does not return to its caller, it
panics; and `printYaml` on a value that makes `yaml.Marshal` panic does not return either. -/
theorem printObject_panics_without_metadata :
    (emptyPrinter.printObject serviceList "diag" ObjectWithDir).returns = false
    ∧ (printRuntimeObject emptyFs serviceList "diag" ObjectWithDir).2 = .panicked
    ∧ (emptyPrinter.printYaml channelValue "diag" "values").returns = false := by
  refine ⟨?_, ?_, ?_⟩ <;> decide

/-! ## Lists of structured objects -/

theorem resolved_fields {x obj : Item}
    (h : (if !isKudoCR x then SetGVKFromScheme x else .ok x) = .ok obj) :
    obj.name = x.name ∧ obj.kind = kindOf x ∧ obj.yaml = x.yaml := by
  unfold isKudoCR SetGVKFromScheme kindOf at *
  cases hk : x.kudoCR <;> cases hs : x.scheme <;> simp [hk, hs] at h ⊢
  all_goals subst h
  all_goals simp

theorem gzipWriter_Write_closed (gz : String → String) (z : gzipWriter) (fs : Fs)
    (log : LogSource) : (z.Write gz fs log).2.1.closed = log.closed := by
  unfold gzipWriter.Write
  split <;> rfl

theorem printLog_closed (gz : String → String) (fs : Fs) (log : LogSource) (dir name : String) :
    ((printLog gz fs log dir name).2.2 = .returned none →
      (printLog gz fs log dir name).2.1.closed = log.closed + 1)
    ∧ (∀ e, (printLog gz fs log dir name).2.2 = .returned (some e) →
      (printLog gz fs log dir name).2.1.closed = log.closed) := by
  rcases hr : printLog gz fs log dir name with ⟨fs', log', err⟩
  unfold printLog at hr
  simp only [] at hr
  split at hr
  · cases hr
    simp
  · split at hr
    · cases hr
      simp
    · split at hr
      · next h =>
        have hc := congrArg (fun r => r.2.1.closed) h
        simp only [gzipWriter_Write_closed] at hc
        cases hr
        simpa using hc.symm
      · next h =>
        have hc := congrArg (fun r => r.2.1.closed) h
        simp only [gzipWriter_Write_closed] at hc
        cases hr
        simpa [LogSource.Close] using hc.symm

/-- C5 fails on the code: when the directory cannot be created `printLog` returns its error
without closing the source (`Close` has been invoked 0 times), and the same holds when the source
fails in the middle of the read and when the file cannot be created; only the success path closes
the source, once. -/
theorem printLog_failure_leaves_source_open :
    (printLog id readOnlyFs podLog "diag" "web-1").2.2
      = .returned (some "failed to create directory diag/pod_web-1: permission denied")
    ∧ (printLog id readOnlyFs podLog "diag" "web-1").2.1.closed = 0
    ∧ (printLog id emptyFs brokenLog "diag" "web-1").2.2
      = .returned (some "failed to write to file diag/pod_web-1/web-1.log.gz: connection reset")
    ∧ (printLog id emptyFs brokenLog "diag" "web-1").2.1.closed = 0
    ∧ (printLog id emptyFs podLog "diag" "web-1").2.2 = .returned none
    ∧ (printLog id emptyFs podLog "diag" "web-1").2.1.closed = 1
    ∧ (printLog id fullFs podLog "diag" "web-1").2.2
      = .returned
          (some "failed to create file diag/pod_web-1/web-1.log.gz: no space left on device")
    ∧ (printLog id fullFs podLog "diag" "web-1").2.1.closed = 0 := by
  decide

/-! ## Kind resolution of pre-resolved objects -/

/-- C7 fails on the code: for a pre-resolved object of a type the registry does not know, mode
`ObjectWithDir` writes the object without consulting the registry, while mode `RuntimeObject`
consults the registry all the same: the call returns the registry's failure and nothing is
written. -/
theorem runtimeObject_mode_resolves_pre_resolved_object :
    isKudoCR instanceCR.toItem = true
    ∧ (printRuntimeObject emptyFs instanceCR "diag" ObjectWithDir).2 = .returned none
    ∧ (printRuntimeObject emptyFs instanceCR "diag" ObjectWithDir).1.files
        "diag/instance_zk/zk.yaml" = some "kind: Instance"
    ∧ (printRuntimeObject emptyFs instanceCR "diag" RuntimeObject).2
        = .returned (some "no kind is registered for the type")
    ∧ (printRuntimeObject emptyFs instanceCR "diag" RuntimeObject).1.dirs = []
    ∧ (printRuntimeObject emptyFs instanceCR "diag" RuntimeObject).1.files "diag/instance.yaml"
        = none := by
  decide

/-! ## The shape of the accumulator entries -/

theorem MkdirAll_error_fault {fs : Fs} {path e : String} (h : fs.MkdirAll path = .error e) :
    fs.mkdirErr path = some e := by
  unfold Fs.MkdirAll at h
  split at h
  · next h' => cases h; exact h'
  · cases h

theorem Create_error_fault {fs : Fs} {path e : String} (h : fs.Create path = .error e) :
    fs.createErr path = some e := by
  unfold Fs.Create at h
  split at h
  · next h' => cases h; exact h'
  · cases h

theorem Write_error_fault {fs : Fs} {path b e : String} (h : fs.Write path b = .error e) :
    fs.writeErr path = some e := by
  unfold Fs.Write at h
  split at h
  · next h' => cases h; exact h'
  · cases h

theorem wrapped_mkdir {fs : Fs} (c : Call) {path cause : String}
    (h : fs.mkdirErr path = some cause) :
    Wrapped fs c ("failed to create directory " ++ path ++ ": " ++ cause) :=
  ⟨"create directory", path, cause, by decide, Or.inl h, by simp [failedTo, String.append_assoc]⟩

theorem wrapped_create {fs : Fs} (c : Call) {path cause : String}
    (h : fs.createErr path = some cause) :
    Wrapped fs c ("failed to create " ++ path ++ ": " ++ cause) :=
  ⟨"create", path, cause, by decide, Or.inr (Or.inl h), by simp [failedTo, String.append_assoc]⟩

theorem wrapped_create_file {fs : Fs} (c : Call) {path cause : String}
    (h : fs.createErr path = some cause) :
    Wrapped fs c ("failed to create file " ++ path ++ ": " ++ cause) :=
  ⟨"create file", path, cause, by decide, Or.inr (Or.inl h),
    by simp [failedTo, String.append_assoc]⟩

theorem wrapped_write {fs : Fs} (c : Call) {path cause : String}
    (h : fs.writeErr path = some cause) :
    Wrapped fs c ("failed to write to file " ++ path ++ ": " ++ cause) :=
  ⟨"write to file", path, cause, by decide, Or.inr (Or.inr (Or.inl h)),
    by simp [failedTo, String.append_assoc]⟩

theorem wrapped_marshal (fs : Fs) (v : Value) (dir name : String) {cause : String}
    (h : v.marshal = .error cause) :
    Wrapped fs (.yaml v dir name)
      ("failed to marshal object to " ++ dir ++ "/" ++ name ++ ".yaml: " ++ cause) := by
  refine ⟨"marshal object to", dir ++ "/" ++ name ++ ".yaml", cause, by decide,
    Or.inr (Or.inr (Or.inr (Or.inl ⟨v, dir, name, rfl, h, rfl⟩))), ?_⟩
  have h1 : "failed to marshal object to " = "failed to " ++ "marshal object to" ++ " " := by decide
  have h2 : ".yaml: " = ".yaml" ++ ": " := by decide
  rw [failedTo, h1, h2]
  simp only [String.append_assoc]

theorem wrapped_read (fs : Fs) (log : LogSource) (dir name : String) {cause : String}
    (h : log.readErr = some cause) :
    Wrapped fs (.log log dir name)
      ("failed to write to file " ++ (dir ++ "/pod_" ++ name ++ "/" ++ name ++ ".log.gz") ++ ": "
        ++ cause) :=
  ⟨"write to file", dir ++ "/pod_" ++ name ++ "/" ++ name ++ ".log.gz", cause, by decide,
    Or.inr (Or.inr (Or.inr (Or.inr ⟨log, dir, name, rfl, h, rfl⟩))),
    by simp [failedTo, String.append_assoc]⟩

theorem printBytes_error (c : Call) {fs fs' : Fs} {b dir name e : String}
    (h : printBytes fs b dir name = (fs', .returned (some e))) : Wrapped fs c e := by
  unfold printBytes at h
  split at h
  · next h1 =>
    cases h
    exact wrapped_mkdir c (MkdirAll_error_fault h1)
  · next fs1 h1 =>
    have g1 := (MkdirAll_grows h1).1
    simp only [] at h
    split at h
    · next h2 =>
      cases h
      exact wrapped_create_file c (g1.2.1 ▸ Create_error_fault h2)
    · next fs2 h2 =>
      have g2 := (Create_grows h2).1
      split at h
      · next h3 =>
        cases h
        exact wrapped_write c (g1.2.2.1 ▸ g2.2.2.1 ▸ Write_error_fault h3)
      · cases h

theorem printYaml_error {fs fs' : Fs} {v : Value} {dir name e : String}
    (h : printYaml fs v dir name = (fs', .returned (some e))) :
    Wrapped fs (.yaml v dir name) e := by
  unfold printYaml at h
  split at h
  · simp at h
  · next h1 =>
    cases h
    exact wrapped_marshal fs v dir name h1
  · split at h
    · next h2 =>
      cases h
      exact wrapped_mkdir _ (MkdirAll_error_fault h2)
    · next fs1 h2 =>
      have g1 := (MkdirAll_grows h2).1
      obtain ⟨action, path, cause, ha, hu, he⟩ := printBytes_error (.yaml v dir name) h
      refine ⟨action, path, cause, ha, ?_, he⟩
      unfold Underlying at hu ⊢
      rw [g1.1, g1.2.1, g1.2.2.1] at hu
      exact hu

theorem copyBlocks_error (gz : String → String) (file : String) (reads : List String) :
    ∀ (fs fs' : Fs) (rest : List String) (e : String),
      copyBlocks gz file fs reads = (fs', rest, some e) → fs.writeErr file = some e := by
  induction reads with
  | nil =>
    intro fs fs' rest e h
    simp [copyBlocks] at h
  | cons b bs ih =>
    intro fs fs' rest e h
    unfold copyBlocks at h
    split at h
    · next h1 =>
      cases h
      exact Write_error_fault h1
    · next fs1 h1 =>
      have g := Write_grows h1
      exact g.2.2.1 ▸ ih fs1 fs' rest e h

theorem printLog_error (gz : String → String) {fs fs' : Fs} {log log' : LogSource}
    {dir name e : String}
    (h : printLog gz fs log dir name = (fs', log', .returned (some e))) :
    Wrapped fs (.log log dir name) e := by
  unfold printLog at h
  simp only [] at h
  split at h
  · next h1 =>
    cases h
    exact wrapped_mkdir _ (MkdirAll_error_fault h1)
  · next fs1 h1 =>
    have g1 := (MkdirAll_grows h1).1
    split at h
    · next h2 =>
      cases h
      exact wrapped_create_file _ (g1.2.1 ▸ Create_error_fault h2)
    · next fs2 h2 =>
      have g2 := (Create_grows h2).1
      split at h
      · next fs3 log3 err hw =>
        cases h
        unfold gzipWriter.Write newGzipWriter at hw
        split at hw
        · next hc =>
          cases hw
          exact wrapped_write _ (g1.2.2.1 ▸ g2.2.2.1 ▸ copyBlocks_error gz _ _ _ _ _ _ hc)
        · next hc =>
          simp only [Prod.mk.injEq] at hw
          exact wrapped_read fs log dir name hw.2.2
      · cases h

theorem PrintObj_error {fs : Fs} {o : Item} {file e : String}
    (h : (PrintObj fs o file).2 = .returned (some e)) :
    o.yaml = .error e ∨ fs.writeErr file = some e := by
  unfold PrintObj at h
  split at h
  · next h1 =>
    simp only [Outcome.returned.injEq, Option.some.injEq] at h
    exact Or.inl (h ▸ h1)
  · split at h
    · next h2 =>
      simp only [Outcome.returned.injEq, Option.some.injEq] at h
      exact Or.inr (h ▸ Write_error_fault h2)
    · simp at h

theorem resolved_error {x : Item} {e : String}
    (h : (if !isKudoCR x then SetGVKFromScheme x else .ok x) = .error e) :
    x.scheme = .error e := by
  unfold isKudoCR SetGVKFromScheme at h
  cases hk : x.kudoCR <;> cases hs : x.scheme <;> simp [hk, hs] at h ⊢
  exact h

theorem printSingleObject_error (c : Call) {fs : Fs} {x : Item} {dir e : String}
    (h : (printSingleObject fs x dir).2 = .returned (some e)) :
    Wrapped fs c e ∨ x.scheme = .error e ∨ x.yaml = .error e
      ∨ ∃ path, fs.writeErr path = some e := by
  unfold printSingleObject at h
  split at h
  · next hres =>
    simp only [Outcome.returned.injEq, Option.some.injEq] at h
    exact Or.inr (Or.inl (h ▸ resolved_error hres))
  · next obj hres =>
    obtain ⟨-, -, hyaml⟩ := resolved_fields hres
    split at h
    · simp at h
    · simp only [] at h
      split at h
      · next h1 =>
        simp only [Outcome.returned.injEq, Option.some.injEq] at h
        exact Or.inl (h ▸ wrapped_mkdir c (MkdirAll_error_fault h1))
      · next fs1 h1 =>
        have g1 := (MkdirAll_grows h1).1
        split at h
        · next h2 =>
          simp only [Outcome.returned.injEq, Option.some.injEq] at h
          exact Or.inl (h ▸ wrapped_create c (g1.2.1 ▸ Create_error_fault h2))
        · next fs2 h2 =>
          have g2 := (Create_grows h2).1
          rcases PrintObj_error h with hy | hw
          · exact Or.inr (Or.inr (Or.inl (hyaml ▸ hy)))
          · exact Or.inr (Or.inr (Or.inr ⟨_, g1.2.2.1 ▸ g2.2.2.1 ▸ hw⟩))

theorem printSingleRuntimeObject_error (c : Call) {fs : Fs} {x : Item} {dir e : String}
    (h : (printSingleRuntimeObject fs x dir).2 = .returned (some e)) :
    Wrapped fs c e ∨ x.scheme = .error e ∨ x.yaml = .error e
      ∨ ∃ path, fs.writeErr path = some e := by
  unfold printSingleRuntimeObject SetGVKFromScheme at h
  split at h
  · next hres =>
    simp only [Outcome.returned.injEq, Option.some.injEq] at h
    split at hres
    · next hs => cases hres; exact Or.inr (Or.inl (h ▸ hs))
    · cases hres
  · next obj hres =>
    have hyaml : obj.yaml = x.yaml := by
      split at hres
      · cases hres
      · cases hres; rfl
    split at h
    · next h1 =>
      simp only [Outcome.returned.injEq, Option.some.injEq] at h
      exact Or.inl (h ▸ wrapped_mkdir c (MkdirAll_error_fault h1))
    · next fs1 h1 =>
      have g1 := (MkdirAll_grows h1).1
      simp only [] at h
      split at h
      · next h2 =>
        simp only [Outcome.returned.injEq, Option.some.injEq] at h
        exact Or.inl (h ▸ wrapped_create c (g1.2.1 ▸ Create_error_fault h2))
      · next fs2 h2 =>
        have g2 := (Create_grows h2).1
        rcases PrintObj_error h with hy | hw
        · exact Or.inr (Or.inr (Or.inl (hyaml ▸ hy)))
        · exact Or.inr (Or.inr (Or.inr ⟨_, g1.2.2.1 ▸ g2.2.2.1 ▸ hw⟩))

theorem eachListItem_error (dir : String) (items : List Item) :
    ∀ (fs : Fs) (e : String),
      (eachListItem (fun fs ro => printSingleObject fs ro dir) fs items).2 = .returned (some e) →
      ∃ x ∈ items, ∃ fsx, fs.Grows fsx ∧ (printSingleObject fsx x dir).2 = .returned (some e) := by
  induction items with
  | nil =>
    intro fs e h
    simp [eachListItem] at h
  | cons x rest ih =>
    intro fs e h
    unfold eachListItem at h
    rcases hx : printSingleObject fs x dir with ⟨fsx, err | _⟩
    · cases err with
      | none =>
        rw [hx] at h
        simp only at h
        have g : fs.Grows fsx := by
          have := printSingleObject_grows fs x dir
          rwa [hx] at this
        obtain ⟨y, hy, fsy, gy, hy'⟩ := ih fsx e h
        exact ⟨y, List.mem_cons_of_mem _ hy, fsy, g.trans gy, hy'⟩
      | some e' =>
        rw [hx] at h
        simp only [Outcome.returned.injEq, Option.some.injEq] at h
        subst h
        exact ⟨x, List.mem_cons_self _ _, fs, Fs.Grows.refl fs, by rw [hx]⟩
    · rw [hx] at h
      simp at h

theorem Wrapped.of_grows {fs fsx : Fs} {c : Call} {e : String} (g : fs.Grows fsx)
    (h : Wrapped fsx c e) : Wrapped fs c e := by
  obtain ⟨action, path, cause, ha, hu, he⟩ := h
  refine ⟨action, path, cause, ha, ?_, he⟩
  unfold Underlying at hu ⊢
  rw [g.1, g.2.1, g.2.2.1] at hu
  exact hu

theorem serializer_error_shape (gz : String → String) (fs : Fs) (c : Call) (e : String)
    (h : (serializer gz fs c).2 = .returned (some e)) : Wrapped fs c e ∨ Unwrapped fs c e := by
  cases c with
  | object o dir mode =>
    simp only [serializer, printRuntimeObject] at h
    split at h
    · rcases printSingleObject_error (.object o dir mode) h with hw | hs | hy | hwr
      · exact Or.inl hw
      · exact Or.inr ⟨o, dir, mode, rfl, Or.inl hs⟩
      · exact Or.inr ⟨o, dir, mode, rfl, Or.inr (Or.inl hy)⟩
      · exact Or.inr ⟨o, dir, mode, rfl, Or.inr (Or.inr (Or.inr (Or.inr hwr)))⟩
    · split at h
      · unfold EachListItem at h
        split at h
        · next hi =>
          simp only [Outcome.returned.injEq, Option.some.injEq] at h
          exact Or.inr ⟨o, dir, mode, rfl, Or.inr (Or.inr (Or.inl (h ▸ hi)))⟩
        · next items hi =>
          obtain ⟨x, hx, fsx, g, hx'⟩ := eachListItem_error dir items fs e h
          rcases printSingleObject_error (.object o dir mode) hx' with hw | hs | hy | ⟨path, hwr⟩
          · exact Or.inl (hw.of_grows g)
          · exact Or.inr ⟨o, dir, mode, rfl,
              Or.inr (Or.inr (Or.inr (Or.inl ⟨items, x, hi, hx, Or.inl hs⟩)))⟩
          · exact Or.inr ⟨o, dir, mode, rfl,
              Or.inr (Or.inr (Or.inr (Or.inl ⟨items, x, hi, hx, Or.inr hy⟩)))⟩
          · exact Or.inr ⟨o, dir, mode, rfl,
              Or.inr (Or.inr (Or.inr (Or.inr ⟨path, g.2.2.1 ▸ hwr⟩)))⟩
      · rcases printSingleRuntimeObject_error (.object o dir mode) h with hw | hs | hy | hwr
        · exact Or.inl hw
        · exact Or.inr ⟨o, dir, mode, rfl, Or.inl hs⟩
        · exact Or.inr ⟨o, dir, mode, rfl, Or.inr (Or.inl hy)⟩
        · exact Or.inr ⟨o, dir, mode, rfl, Or.inr (Or.inr (Or.inr (Or.inr hwr)))⟩
  | error err dir name =>
    simp only [serializer] at h
    exact Or.inl (printBytes_error _ (Prod.ext rfl h))
  | log log dir name =>
    simp only [serializer] at h
    exact Or.inl (printLog_error gz (Prod.ext rfl (Prod.ext rfl h)))
  | yaml v dir name =>
    simp only [serializer] at h
    exact Or.inl (printYaml_error (Prod.ext rfl h))

/-- C10, as the code has it. When the serializer under a call returns an error, the entry
appended to the accumulator is that error's text, and it is a line
"failed to <action> <path>: <cause>" — with <path> the directory or file concerned and <cause> the
text of the underlying failure — for a directory creation, file creation or write failure of
`printError`, `printLog` and `printYaml`, a read failure of `printLog`, a marshal failure of
`printYaml` and a directory or file creation failure of `printObject`. A failure of kind
resolution, of list enumeration, or of the YAML printer (render or write) in `printObject` is
appended as the underlying error text, unchanged; every failing call other than `printObject`
appends a "failed to" line. -/
theorem failure_entry_shape (gz : String → String) (p : NonFailingPrinter) (c : Call)
    (e : String) (h : (serializer gz p.fs c).2 = .returned (some e)) :
    (step gz p c).printer.errors = p.errors ++ [e]
    ∧ (Wrapped p.fs c e ∨ Unwrapped p.fs c e)
    ∧ ((∀ o dir mode, c ≠ .object o dir mode) → Wrapped p.fs c e) := by
  have hshape := serializer_error_shape gz p.fs c e h
  refine ⟨?_, hshape, ?_⟩
  · rw [step_eq_serializer]
    rcases hs : serializer gz p.fs c with ⟨fs, o⟩
    rw [hs] at h
    simp only at h
    subst h
    simp [Completion.printer, NonFailingPrinter.record]
  · intro hc
    rcases hshape with hw | ⟨o, dir, mode, rfl, -⟩
    · exact hw
    · exact absurd rfl (hc o dir mode)

/-- Witness for `failure_entry_shape`: an error record that cannot be stored because the
directory cannot be created leaves a "failed to create directory" line. -/
theorem failure_entry_shape_witness :
    (step id { fs := readOnlyFs, errors := [] } (.error "boom" "dir" "web-1")).printer.errors
      = [failedTo "create directory" "dir" "permission denied"]
    ∧ Wrapped readOnlyFs (.error "boom" "dir" "web-1")
        "failed to create directory dir: permission denied" :=
  ⟨(failure_entry_shape id { fs := readOnlyFs, errors := [] } (.error "boom" "dir" "web-1")
      "failed to create directory dir: permission denied" rfl).1,
    (failure_entry_shape id { fs := readOnlyFs, errors := [] } (.error "boom" "dir" "web-1")
      "failed to create directory dir: permission denied" rfl).2.2
        (fun _ _ _ h => Call.noConfusion h)⟩

/-- C10 fails as stated: the entry left by a kind-resolution failure is the registry's error
text as it is, which is not a line of the form "failed to <action> <path>: <cause>". -/
theorem resolution_failure_entry_is_not_wrapped :
    (emptyPrinter.printObject unregistered "diag" ObjectWithDir).printer.errors
      = ["no kind is registered for the type"]
    ∧ ¬ ∃ action path cause,
        "no kind is registered for the type" = failedTo action path cause := by
  refine ⟨by decide, ?_⟩
  rintro ⟨action, path, cause, h⟩
  have := congrArg (fun s => s.data.head?) h
  simp [failedTo, String.data_append] at this

end Diagnostics
